import Mathlib

/-!
Shallow embedding of the GFS wind power pipeline
(src/pipeline_example/src/data_extractor.py and src/pipeline_example/src/analysis.py).

Machine floats are embedded as rationals where the code only compares and
averages values, and as reals where the code takes a square root.  Database
tables are embedded as lists of rows; the SQLite calls of the source reduce to
append and filter operations on those lists.
-/

/-- One row of the gfs_forecasts table (schema created in setup_database,
data_extractor.py lines 45 to 59; the id and created_at columns the database
fills in are omitted, as are the raw field columns that play no role in the
claims). -/
structure GridRow where
  forecast_date : String
  cycle : String
  forecast_hour : Nat
  lat : ℚ
  lon : ℚ
  wind_power_density : ℚ
deriving DecidableEq

/-- One row of the country_rankings table (setup_database, lines 61 to 71). -/
structure RankingRow where
  forecast_date : String
  cycle : String
  country : String
  avg_wind_power_density : ℚ
  rank : Nat
deriving DecidableEq

/-- Wind speed from the two wind components: np.sqrt(u ** 2 + v ** 2),
data_extractor.py line 184. -/
noncomputable def wind_speed (u v : ℝ) : ℝ := Real.sqrt (u ^ 2 + v ^ 2)

/-- The wind power density formula of data_extractor.py line 190,
0.5 * air_density * wind_speed ** 3, with the air density as a parameter. -/
noncomputable def wind_power_density (rho u v : ℝ) : ℝ :=
  0.5 * rho * wind_speed u v ^ 3

/-- The derivation step of process_grib_file, data_extractor.py lines 180 to 191:
the air density is the constant 1.225 assigned on line 187, whatever other fields
were extracted.  The optional temperature and surface pressure arguments stand for
the presence or absence of those fields in the variables dict; no branch of the
source consults them when computing the density. -/
noncomputable def derived_wind_power_density (u v : ℝ)
    (temp_2m surface_pressure : Option ℝ) : ℝ :=
  wind_power_density 1.225 u v

/-- Modelled from the spec: the ideal gas law air density mode of section 4.2,
rho = surface_pressure / (R_specific * temp_2m_kelvin) with R_specific = 287.058.
No such mode exists anywhere under src; this definition follows the spec words so
that the constant density mode the source implements can be compared with it. -/
noncomputable def idealGasDensity (surface_pressure temp_2m_kelvin : ℝ) : ℝ :=
  surface_pressure / (287.058 * temp_2m_kelvin)

/-- Modelled from the spec: normalize_longitude of section 4.1, which appears in
no file under src.  The spec defines it by the words: lon - 360 if lon > 180 else
lon. -/
def normalize_longitude (lon : ℚ) : ℚ := if lon > 180 then lon - 360 else lon

/-- A grid coordinate pair. -/
structure GeoPoint where
  lat : ℚ
  lon : ℚ
deriving DecidableEq

/-- The bounding box subset of process_grib_file, data_extractor.py lines 143 to
147: a label slice latitude lat_max down to lat_min (grid stored north to south)
and longitude lon_min to lon_max.  A label slice on a monotone coordinate keeps
exactly the points lying between the two bounds, a single contiguous range. -/
def subset_bbox (pts : List GeoPoint) (latMin latMax lonMin lonMax : ℚ) :
    List GeoPoint :=
  pts.filter fun p =>
    decide (latMin ≤ p.lat ∧ p.lat ≤ latMax ∧ lonMin ≤ p.lon ∧ p.lon ≤ lonMax)

/-- How many of the three field discriminators of process_grib_file (lines 150 to
174) matched at least one message: the size of the variables dict, whose possible
keys are u_wind_100m, v_wind_100m and temp_2m. -/
def matchedFieldCount (hasU hasV hasT : Bool) : Nat :=
  (if hasU then 1 else 0) + (if hasV then 1 else 0) + (if hasT then 1 else 0)

/-- The gate on data_extractor.py line 176: the file level extraction returns a
dataset unless len(variables) < 2, in which case it returns None. -/
def extractionReturnsResult (hasU hasV hasT : Bool) : Bool :=
  decide (2 ≤ matchedFieldCount hasU hasV hasT)

/-- One iteration of the forecast hour loop of run_extraction, data_extractor.py
lines 338 to 356.  The download is attempted; on success the branch on lines 344
to 345 (if file_path: break) leaves the loop before any processing, and on
failure the branch on lines 347 to 349 (if not file_path: continue) moves to the
next hour.  The processing statements on lines 351 to 356 are unreachable: every
iteration either breaks or continues above them, so processFile is never applied
and the accumulator is returned unchanged.  The Bool is true when the loop
breaks. -/
def forecastHourStep (download : Nat → Option String)
    (processFile : String → Option (List GridRow)) (h : Nat)
    (cycle_data : List (List GridRow)) : List (List GridRow) × Bool :=
  match download h with
  | some _ => (cycle_data, true)
  | none => (cycle_data, false)

/-- The forecast hour loop of run_extraction (for forecast_hour in
FORECAST_HOURS, line 338), threading the cycle_data accumulator. -/
def forecastHourLoop (download : Nat → Option String)
    (processFile : String → Option (List GridRow)) (hours : List Nat)
    (cycle_data : List (List GridRow)) : List (List GridRow) :=
  match hours with
  | [] => cycle_data
  | h :: rest =>
    match forecastHourStep download processFile h cycle_data with
    | (acc, true) => acc
    | (acc, false) => forecastHourLoop download processFile rest acc

/-- run_extraction for one cycle, data_extractor.py lines 332 to 370: run the
hour loop starting from the empty cycle_data list; when anything was collected
concatenate it row wise (pd.concat, line 360) and hand it on, otherwise report
the cycle failed (logger.error, line 370), here none. -/
def run_extraction_cycle (download : Nat → Option String)
    (processFile : String → Option (List GridRow)) (hours : List Nat) :
    Option (List GridRow) :=
  let cycle_data := forecastHourLoop download processFile hours []
  if cycle_data.isEmpty then none else some cycle_data.flatten

/-- The download oracle of the end to end scenario of the spec: hour 6 fails,
every other hour yields a file. -/
def downloadHour6Fails (h : Nat) : Option String :=
  if h = 6 then none else some "gfs.grb2"

/-- The processing oracle of the end to end scenario: every downloaded file
yields one data row. -/
def processOneRow (f : String) : Option (List GridRow) :=
  some [⟨"20240101", "00", 0, 55, 10, 100⟩]

/-- save_to_database, data_extractor.py lines 233 to 255: to_sql with if_exists
append, so the new rows are appended to whatever the table already holds; no
delete happens anywhere in the function. -/
def save_to_database (table : List GridRow) (df : List GridRow) : List GridRow :=
  table ++ df

/-- The rankings persistence of analysis.py main, lines 143 to 157: DELETE FROM
country_rankings WHERE forecast_date = d AND cycle = c, then append the new
rows. -/
def replace_run_rankings (table : List RankingRow) (d c : String)
    (rows : List RankingRow) : List RankingRow :=
  table.filter (fun r => !(r.forecast_date == d && r.cycle == c)) ++ rows

/-- The coarse country classifier of calculate_country_rankings,
data_extractor.py lines 277 to 293: the if elif chain on lat and lon, with Other
as the final else. -/
def assignCountry (lat lon : ℚ) : String :=
  if lat > 60 then "Norway"
  else if lat > 55 ∧ lon < 15 then "Denmark"
  else if lat > 50 ∧ lon < 5 then "United Kingdom"
  else if lat > 45 ∧ lon < 10 then "France"
  else if lat > 45 ∧ lon > 10 then "Germany"
  else if lat > 40 ∧ lon > 20 then "Eastern Europe"
  else "Other"

/-- One row of the query on data_extractor.py lines 263 to 267: SELECT lat, lon,
wind_power_density FROM gfs_forecasts for the run. -/
structure Point where
  lat : ℚ
  lon : ℚ
  wpd : ℚ
deriving DecidableEq

/-- The mean of a list of values, as the pandas groupby mean computes it. -/
def mean (l : List ℚ) : ℚ := l.sum / l.length

/-- A country together with its mean wind power density. -/
structure CountryAvg where
  country : String
  avg : ℚ
deriving DecidableEq

/-- Stable insertion: x is placed after exactly the leading elements y with
before y x, so elements the relation does not separate keep their order. -/
def insertSorted {α : Type} (before : α → α → Bool) (x : α) : List α → List α
  | [] => [x]
  | y :: ys => if before y x then y :: insertSorted before x ys else x :: y :: ys

/-- Stable sort by repeated insertion. -/
def sortBy {α : Type} (before : α → α → Bool) (l : List α) : List α :=
  l.foldr (insertSorted before) []

/-- Character list comparison by code point, the lexicographic String order the
pandas groupby uses when sorting the country keys. -/
def charListLt : List Char → List Char → Bool
  | [], [] => false
  | [], _ :: _ => true
  | _ :: _, [] => false
  | a :: as, b :: bs =>
    if a.val < b.val then true
    else if a.val = b.val then charListLt as bs
    else false

/-- String comparison through the character lists. -/
def strLtb (a b : String) : Bool := charListLt a.data b.data

/-- The distinct country keys of the grouped frame in ascending order, as the
pandas groupby on line 298 produces them (groupby sorts its keys). -/
def countryKeys (pts : List Point) : List String :=
  sortBy strLtb ((pts.map fun p => assignCountry p.lat p.lon).dedup)

/-- The grouped means of data_extractor.py line 298: one entry per country key,
carrying the mean wind power density of the points assigned to it. -/
def countryMeans (pts : List Point) : List CountryAvg :=
  (countryKeys pts).map fun c =>
    ⟨c, mean ((pts.filter fun p => assignCountry p.lat p.lon == c).map Point.wpd)⟩

/-- sort_values on the mean, descending, data_extractor.py line 299, modelled as
a stable descending sort. -/
def sortByAvgDesc (l : List CountryAvg) : List CountryAvg :=
  sortBy (fun a b => decide (b.avg < a.avg)) l

/-- A ranking row before the date and cycle columns are attached. -/
structure RankedRow where
  country : String
  avg : ℚ
  rank : Nat
deriving DecidableEq

/-- The rank column of data_extractor.py line 300: range(1, len + 1) written down
the sorted frame. -/
def withRanks : List CountryAvg → Nat → List RankedRow
  | [], _ => []
  | x :: xs, n => ⟨x.country, x.avg, n⟩ :: withRanks xs (n + 1)

/-- calculate_country_rankings, data_extractor.py lines 257 to 316, from the
queried points to the ranked country table: classify, group, average, sort
descending, attach ranks 1 up. -/
def calculate_country_rankings (pts : List Point) : List RankedRow :=
  withRanks (sortByAvgDesc (countryMeans pts)) 1

/-- C10: the coarse country classifier is total and deterministic: every
coordinate pair lands in exactly one of the seven fixed buckets, with Other as
the catch all. -/
theorem assignCountry_total (lat lon : ℚ) :
    assignCountry lat lon ∈
      ["Norway", "Denmark", "United Kingdom", "France", "Germany",
        "Eastern Europe", "Other"] := by
  unfold assignCountry
  split_ifs <;> simp

/-- C9: on the two point input the classifier puts the first point (lat 61) in
Norway and the second (lat 58, lon 10) in Denmark, and the ranking gives Norway,
the higher average, rank 1 and Denmark rank 2. -/
theorem rankings_two_point_example :
    calculate_country_rankings [⟨61, 5, 100⟩, ⟨58, 10, 50⟩] =
      [⟨"Norway", 100, 1⟩, ⟨"Denmark", 50, 2⟩] := by
  have h : countryMeans [⟨61, 5, 100⟩, ⟨58, 10, 50⟩] =
      [⟨"Denmark", 50⟩, ⟨"Norway", 100⟩] := by
    simp +decide [countryMeans, countryKeys, assignCountry, mean, sortBy,
      insertSorted, strLtb, charListLt, List.dedup_cons_of_not_mem,
      List.dedup_cons_of_mem]
  rw [calculate_country_rankings, h]
  decide

/-- C1: the end to end scenario evaluated on the orchestrator as written.  Hour 6
fails to download, hours 0, 12 and 18 download and would each process to one
row, yet the run yields no aggregate at all: the break on data_extractor.py line
345 leaves the hour loop at the first successful download, before the
(unreachable) processing code, so cycle_data stays empty and the run is reported
failed. -/
theorem run_extraction_break_bug :
    downloadHour6Fails 6 = none ∧
      (∀ h ∈ ([0, 12, 18] : List Nat), (downloadHour6Fails h).isSome) ∧
      (∀ f, (processOneRow f).isSome) ∧
      run_extraction_cycle downloadHour6Fails processOneRow [0, 6, 12, 18] =
        none := by
  refine ⟨rfl, by decide, fun f => rfl, rfl⟩

/-- C5: the gate on data_extractor.py line 176 only counts matched fields, so a
file where the u component and the temperature matched but the v component
matched no message passes the gate and the extraction returns a dataset, even
though the mandatory wind components are not both present. -/
theorem extraction_gate_accepts_missing_v :
    extractionReturnsResult true false true = true ∧ (true && false) = false := by
  decide

/-- C2 counterexample: save_to_database appends, so persisting the same single
row twice leaves two copies in the gfs_forecasts table where the claim promises
the row count stays invariant. -/
theorem save_to_database_duplicates :
    (save_to_database (save_to_database [] [⟨"20240101", "00", 0, 55, 10, 100⟩])
          [⟨"20240101", "00", 0, 55, 10, 100⟩]).length ≠
      (save_to_database [] [(⟨"20240101", "00", 0, 55, 10, 100⟩ : GridRow)]).length := by
  decide

/-- C2 amended: the delete then insert semantics holds for the rankings table as
analysis.py persists it: when every inserted row carries the key being replaced,
running the same persistence twice with the same key and rows leaves the table
exactly as after the first run. -/
theorem replace_run_rankings_idempotent (t : List RankingRow) (d c : String)
    (rows : List RankingRow)
    (h : ∀ r ∈ rows, r.forecast_date = d ∧ r.cycle = c) :
    replace_run_rankings (replace_run_rankings t d c rows) d c rows =
      replace_run_rankings t d c rows := by
  unfold replace_run_rankings
  rw [List.filter_append]
  have h1 : rows.filter (fun r => !(r.forecast_date == d && r.cycle == c)) = [] := by
    rw [List.filter_eq_nil_iff]
    intro r hr
    simp [(h r hr).1, (h r hr).2]
  rw [h1, List.append_nil, List.filter_filter]
  simp

/-- C2 amended, witness: a concrete table with one stale row for the key and one
row for another run, persisted twice. -/
theorem replace_run_rankings_idempotent_witness :
    replace_run_rankings
        (replace_run_rankings [⟨"20231201", "06", "Norway", 10, 1⟩]
          "20240101" "00" [⟨"20240101", "00", "Norway", 100, 1⟩])
        "20240101" "00" [⟨"20240101", "00", "Norway", 100, 1⟩] =
      replace_run_rankings [⟨"20231201", "06", "Norway", 10, 1⟩]
        "20240101" "00" [⟨"20240101", "00", "Norway", 100, 1⟩] :=
  replace_run_rankings_idempotent _ _ _ _ (by decide)

/-- C7 counterexample: the spec formula is not idempotent at longitude 600
(600 maps to 240, which maps again to -120), and at -200 the result lies below
-180. -/
theorem normalize_longitude_not_idempotent :
    normalize_longitude (normalize_longitude 600) ≠ normalize_longitude 600 ∧
      normalize_longitude (-200) < -180 := by
  norm_num [normalize_longitude]

/-- C7 amended: the spec formula is idempotent for longitudes at most 540, and
its result lies in -180..180 exactly when the input lies in -180..540; in
particular both properties hold on the native 0..360 grid convention. -/
theorem normalize_longitude_spec (x : ℚ) :
    (x ≤ 540 → normalize_longitude (normalize_longitude x) = normalize_longitude x) ∧
      (-180 ≤ x → x ≤ 540 →
        -180 ≤ normalize_longitude x ∧ normalize_longitude x ≤ 180) := by
  unfold normalize_longitude
  constructor
  · intro h
    split_ifs <;> linarith
  · intro h1 h2
    split_ifs with h3 <;> constructor <;> linarith

/-- C7 amended, witness: at longitude 240 (the wrapped branch) both conjuncts
apply. -/
theorem normalize_longitude_spec_witness :
    ((240 : ℚ) ≤ 540 ∧
        normalize_longitude (normalize_longitude 240) = normalize_longitude 240) ∧
      (-180 ≤ (240 : ℚ) ∧ (240 : ℚ) ≤ 540 ∧
        -180 ≤ normalize_longitude 240 ∧ normalize_longitude 240 ≤ 180) :=
  ⟨⟨by norm_num, (normalize_longitude_spec 240).1 (by norm_num)⟩,
    by norm_num, by norm_num,
    ((normalize_longitude_spec 240).2 (by norm_num) (by norm_num)).1,
    ((normalize_longitude_spec 240).2 (by norm_num) (by norm_num)).2⟩

/-- C8 counterexample: for the wrapped box with longitude bounds 350 and 10 the
claim places the point at longitude 355 inside the subset (355 is at least 350),
but the single slice selection of lines 144 to 147 returns nothing. -/
theorem subset_bbox_wrapped_misses_point :
    subset_bbox [⟨50, 355⟩] 40 60 350 10 = [] ∧
      ((350 : ℚ) ≤ 355 ∨ (355 : ℚ) ≤ 10) := by
  exact ⟨by decide, Or.inl (by norm_num)⟩

/-- C8 amended: the slice subset keeps exactly the points between the bounds on
both coordinates; when the longitude bounds are inverted (a wrapped box) it
selects nothing rather than the union of the two outer ranges. -/
theorem subset_bbox_spec (pts : List GeoPoint) (latMin latMax lonMin lonMax : ℚ) :
    (∀ p, p ∈ subset_bbox pts latMin latMax lonMin lonMax ↔
        p ∈ pts ∧ latMin ≤ p.lat ∧ p.lat ≤ latMax ∧
          lonMin ≤ p.lon ∧ p.lon ≤ lonMax) ∧
      (lonMax < lonMin → subset_bbox pts latMin latMax lonMin lonMax = []) := by
  constructor
  · intro p
    simp [subset_bbox, List.mem_filter]
  · intro hwrap
    unfold subset_bbox
    rw [List.filter_eq_nil_iff]
    intro p hp hmem
    rcases of_decide_eq_true hmem with ⟨h1, h2, h3, h4⟩
    linarith

/-- C8 amended, witness: the membership characterization at a contained point,
and the wrapped box of the counterexample selecting nothing. -/
theorem subset_bbox_spec_witness :
    ((⟨50, 5⟩ : GeoPoint) ∈ subset_bbox [⟨50, 5⟩] 40 60 0 10 ↔
        (⟨50, 5⟩ : GeoPoint) ∈ ([⟨50, 5⟩] : List GeoPoint) ∧
          (40 : ℚ) ≤ 50 ∧ (50 : ℚ) ≤ 60 ∧ (0 : ℚ) ≤ 5 ∧ (5 : ℚ) ≤ 10) ∧
      ((10 : ℚ) < 350 ∧ subset_bbox [⟨50, 355⟩] 40 60 350 10 = []) :=
  ⟨(subset_bbox_spec [⟨50, 5⟩] 40 60 0 10).1 ⟨50, 5⟩,
    by norm_num, (subset_bbox_spec [⟨50, 355⟩] 40 60 350 10).2 (by norm_num)⟩

/-- Helper: the wind speed of the components 3 and 4 is 5. -/
theorem wind_speed_three_four : wind_speed 3 4 = 5 := by
  unfold wind_speed
  rw [show (3 : ℝ) ^ 2 + 4 ^ 2 = 5 ^ 2 by norm_num]
  exact Real.sqrt_sq (by norm_num)

/-- C4: the derived quantity is 0.5 * rho * sqrt(u^2 + v^2)^3 and is nonnegative
for every nonnegative air density and all real wind components. -/
theorem wind_power_density_nonneg (rho u v : ℝ) (h : 0 ≤ rho) :
    wind_power_density rho u v = 0.5 * rho * Real.sqrt (u ^ 2 + v ^ 2) ^ 3 ∧
      0 ≤ wind_power_density rho u v := by
  refine ⟨rfl, ?_⟩
  unfold wind_power_density wind_speed
  exact mul_nonneg (mul_nonneg (by norm_num) h)
    (pow_nonneg (Real.sqrt_nonneg _) 3)

/-- C4, witness: the formula and the sign at rho 1.225, u 3, v 4. -/
theorem wind_power_density_nonneg_witness :
    0 ≤ (1.225 : ℝ) ∧
      (wind_power_density 1.225 3 4 =
          0.5 * 1.225 * Real.sqrt ((3 : ℝ) ^ 2 + 4 ^ 2) ^ 3 ∧
        0 ≤ wind_power_density 1.225 3 4) :=
  ⟨by norm_num, wind_power_density_nonneg 1.225 3 4 (by norm_num)⟩

/-- C3 counterexample: with all four fields present (u 3, v 4, temperature 300 K,
surface pressure 100000 Pa) the derivation of process_grib_file still produces
the constant density value and differs from the ideal gas law value, so the
derivation does not select the ideal gas mode when pressure and temperature are
available. -/
theorem derivation_ignores_pressure_temperature :
    derived_wind_power_density 3 4 (some 300) (some 100000) =
        wind_power_density 1.225 3 4 ∧
      derived_wind_power_density 3 4 (some 300) (some 100000) ≠
        wind_power_density (idealGasDensity 100000 300) 3 4 := by
  refine ⟨rfl, ?_⟩
  unfold derived_wind_power_density wind_power_density idealGasDensity
  rw [wind_speed_three_four]
  norm_num

/-- C3 amended: the derivation always uses the constant air density 1.225
whatever optional fields are present, and whenever the wind speed is nonzero and
the ideal gas density differs from 1.225 the ideal gas mode would give a
different wind power density than the derivation produces. -/
theorem derivation_constant_density_mode (u v : ℝ) (temp sp : Option ℝ) :
    derived_wind_power_density u v temp sp = wind_power_density 1.225 u v ∧
      ∀ p t : ℝ, wind_speed u v ≠ 0 → idealGasDensity p t ≠ 1.225 →
        wind_power_density (idealGasDensity p t) u v ≠
          derived_wind_power_density u v temp sp := by
  refine ⟨rfl, ?_⟩
  intro p t hs hrho heq
  apply hrho
  unfold derived_wind_power_density wind_power_density at heq
  rw [mul_assoc, mul_assoc] at heq
  have h2 := mul_left_cancel₀ (by norm_num : (0.5 : ℝ) ≠ 0) heq
  exact mul_right_cancel₀ (pow_ne_zero 3 hs) h2

/-- C3 amended, witness: at u 3, v 4, temperature 300, pressure 100000 the wind
speed is nonzero, the ideal gas density is not 1.225, and the two modes differ. -/
theorem derivation_constant_density_mode_witness :
    wind_speed 3 4 ≠ 0 ∧ idealGasDensity 100000 300 ≠ 1.225 ∧
      wind_power_density (idealGasDensity 100000 300) 3 4 ≠
        derived_wind_power_density 3 4 (some 300) (some 100000) :=
  ⟨by rw [wind_speed_three_four]; norm_num,
    by unfold idealGasDensity; norm_num,
    (derivation_constant_density_mode 3 4 (some 300) (some 100000)).2 100000 300
      (by rw [wind_speed_three_four]; norm_num)
      (by unfold idealGasDensity; norm_num)⟩

/-- Helper: stable insertion produces a permutation of consing. -/
theorem insertSorted_perm {α : Type} (before : α → α → Bool) (x : α)
    (l : List α) : (insertSorted before x l).Perm (x :: l) := by
  induction l with
  | nil => exact List.Perm.refl _
  | cons y ys ih =>
    unfold insertSorted
    split
    · exact (ih.cons y).trans (List.Perm.swap x y ys)
    · exact List.Perm.refl _

/-- Helper: the stable sort permutes its input. -/
theorem sortBy_perm {α : Type} (before : α → α → Bool) (l : List α) :
    (sortBy before l).Perm l := by
  induction l with
  | nil => exact List.Perm.refl _
  | cons x xs ih =>
    show (insertSorted before x (sortBy before xs)).Perm (x :: xs)
    exact (insertSorted_perm before x (sortBy before xs)).trans (ih.cons x)

/-- Helper: inserting into a list whose means descend keeps the means
descending. -/
theorem insertSorted_pairwise_avg (x : CountryAvg) (l : List CountryAvg)
    (h : l.Pairwise fun a b => b.avg ≤ a.avg) :
    (insertSorted (fun a b => decide (b.avg < a.avg)) x l).Pairwise
      fun a b => b.avg ≤ a.avg := by
  induction l with
  | nil => simp [insertSorted]
  | cons y ys ih =>
    rcases List.pairwise_cons.mp h with ⟨hy, hys⟩
    unfold insertSorted
    split
    next hcond =>
      have hxy : x.avg < y.avg := by simpa using hcond
      refine List.pairwise_cons.mpr ⟨?_, ih hys⟩
      intro z hz
      have hz2 : z ∈ x :: ys :=
        (insertSorted_perm (fun a b => decide (b.avg < a.avg)) x ys).mem_iff.mp hz
      rcases List.mem_cons.mp hz2 with rfl | hz3
      · exact le_of_lt hxy
      · exact hy z hz3
    next hcond =>
      have hyx : y.avg ≤ x.avg := not_lt.mp (by simpa using hcond)
      refine List.pairwise_cons.mpr ⟨?_, h⟩
      intro z hz
      rcases List.mem_cons.mp hz with rfl | hz2
      · exact hyx
      · exact le_trans (hy z hz2) hyx

/-- Helper: the descending sort leaves the means pairwise descending. -/
theorem sortByAvgDesc_pairwise (l : List CountryAvg) :
    (sortByAvgDesc l).Pairwise fun a b => b.avg ≤ a.avg := by
  induction l with
  | nil => simp [sortByAvgDesc, sortBy]
  | cons x xs ih =>
    show (insertSorted _ x (sortBy _ xs)).Pairwise _
    exact insertSorted_pairwise_avg x _ ih

/-- Helper: inserting an element whose mean equals q puts it in front of the
elements of mean q already present, leaving them otherwise untouched. -/
theorem insertSorted_filter_avg_eq (x : CountryAvg) (l : List CountryAvg)
    (q : ℚ) (hq : x.avg = q) :
    (insertSorted (fun a b => decide (b.avg < a.avg)) x l).filter
        (fun m => m.avg == q) =
      x :: l.filter (fun m => m.avg == q) := by
  induction l with
  | nil => simp [insertSorted, hq]
  | cons y ys ih =>
    unfold insertSorted
    split
    next hcond =>
      have hxy : x.avg < y.avg := by simpa using hcond
      have hyq : (y.avg == q) = false := by
        simp only [beq_eq_false_iff_ne]
        intro hc
        rw [hc, ← hq] at hxy
        exact lt_irrefl _ hxy
      rw [List.filter_cons_of_neg (by simp [hyq]), ih,
        List.filter_cons_of_neg (by simp [hyq])]
    next =>
      rw [List.filter_cons_of_pos (by simp [hq])]

/-- Helper: inserting an element whose mean differs from q does not change the
elements of mean q. -/
theorem insertSorted_filter_avg_ne (x : CountryAvg) (l : List CountryAvg)
    (q : ℚ) (hq : x.avg ≠ q) :
    (insertSorted (fun a b => decide (b.avg < a.avg)) x l).filter
        (fun m => m.avg == q) =
      l.filter (fun m => m.avg == q) := by
  induction l with
  | nil => simp [insertSorted, hq]
  | cons y ys ih =>
    unfold insertSorted
    split
    next =>
      by_cases hyq : y.avg = q
      · rw [List.filter_cons_of_pos (by simp [hyq]), ih,
          List.filter_cons_of_pos (by simp [hyq])]
      · rw [List.filter_cons_of_neg (by simp [hyq]), ih,
          List.filter_cons_of_neg (by simp [hyq])]
    next =>
      rw [List.filter_cons_of_neg (by simp [hq])]

/-- Helper: the descending sort keeps the elements of every fixed mean value in
their original order (stability). -/
theorem sortByAvgDesc_filter_avg (l : List CountryAvg) (q : ℚ) :
    (sortByAvgDesc l).filter (fun m => m.avg == q) =
      l.filter (fun m => m.avg == q) := by
  induction l with
  | nil => rfl
  | cons x xs ih =>
    have hfold : sortByAvgDesc (x :: xs) =
        insertSorted (fun a b => decide (b.avg < a.avg)) x (sortByAvgDesc xs) :=
      rfl
    rw [hfold]
    by_cases hx : x.avg = q
    · rw [insertSorted_filter_avg_eq x _ q hx, ih,
        List.filter_cons_of_pos (by simp [hx])]
    · rw [insertSorted_filter_avg_ne x _ q hx, ih,
        List.filter_cons_of_neg (by simp [hx])]

/-- Helper: stripping the rank column from the ranked rows gives back the sorted
means. -/
theorem withRanks_map_pair (l : List CountryAvg) (n : Nat) :
    (withRanks l n).map (fun r => CountryAvg.mk r.country r.avg) = l := by
  induction l generalizing n with
  | nil => rfl
  | cons x xs ih =>
    show CountryAvg.mk x.country x.avg :: _ = x :: xs
    rw [ih]

/-- Helper: the rank column is the integer range starting at n. -/
theorem withRanks_map_rank (l : List CountryAvg) (n : Nat) :
    (withRanks l n).map (fun r => r.rank) = List.range' n l.length := by
  induction l generalizing n with
  | nil => rfl
  | cons x xs ih =>
    show n :: (withRanks xs (n + 1)).map (fun r => r.rank) = _
    rw [ih]
    rfl

/-- C6: calculate_country_rankings assigns the consecutive ranks 1..K down the
table, the (country, mean) pairs of the table are exactly the per country means
of the grouped points, their means descend down the table, and groups sharing a
mean keep the order the grouped frame gave them (stable ties). -/
theorem calculate_country_rankings_spec (pts : List Point) :
    ((calculate_country_rankings pts).map (fun r => r.rank) =
        List.range' 1 (countryMeans pts).length) ∧
      ((calculate_country_rankings pts).map
          (fun r => CountryAvg.mk r.country r.avg)).Perm (countryMeans pts) ∧
      ((calculate_country_rankings pts).map (fun r => r.avg)).Pairwise
        (fun a b => b ≤ a) ∧
      ∀ q : ℚ,
        ((calculate_country_rankings pts).map
            (fun r => CountryAvg.mk r.country r.avg)).filter
              (fun m => m.avg == q) =
          (countryMeans pts).filter (fun m => m.avg == q) := by
  have hstrip : (calculate_country_rankings pts).map
      (fun r => CountryAvg.mk r.country r.avg) =
        sortByAvgDesc (countryMeans pts) :=
    withRanks_map_pair _ 1
  have hlen : (sortByAvgDesc (countryMeans pts)).length =
      (countryMeans pts).length :=
    (sortBy_perm _ _).length_eq
  refine ⟨?_, ?_, ?_, ?_⟩
  · have h1 : (calculate_country_rankings pts).map (fun r => r.rank) =
        List.range' 1 (sortByAvgDesc (countryMeans pts)).length :=
      withRanks_map_rank _ 1
    rw [h1, hlen]
  · rw [hstrip]
    exact sortBy_perm _ _
  · have h2 : (calculate_country_rankings pts).map (fun r => r.avg) =
        (sortByAvgDesc (countryMeans pts)).map (fun m => m.avg) := by
      rw [← hstrip, List.map_map]
      rfl
    rw [h2]
    exact List.pairwise_map.mpr (sortByAvgDesc_pairwise _)
  · intro q
    rw [hstrip]
    exact sortByAvgDesc_filter_avg _ q
